import Mathlib

/-!
Verification development for the windows-spoofer native module
(`src/native/windows-spoofer`): a shallow embedding of the identifier
spoofing controller (`identifier-manager.cc`), the two API hooks
(`api-hooks.cc`) and the host-binding layer (`spoofer.cc`), together with
theorems settling the specified behaviour.

External collaborators (the real volume query, adapter enumeration,
module/proc resolution, the Detours transaction commit and the process
liveness check) are modelled by an explicit `Env` record of their
outcomes; machine integers are `Nat` with explicit `% 2^32` where the
code truncates.
-/

namespace Spoof

/-! ## Characters, hex digits and `std::stoul(·, nullptr, 16)` -/

/-- One character of a base-16 number, as accepted by `strtoul`/`std::stoul`. -/
def isHexDigitChar (c : Char) : Bool :=
  ('0' ≤ c && c ≤ '9') || ('a' ≤ c && c ≤ 'f') || ('A' ≤ c && c ≤ 'F')

/-- Numeric value of a hex digit character. -/
def hexCharVal (c : Char) : Nat :=
  if '0' ≤ c && c ≤ '9' then c.toNat - 48
  else if 'a' ≤ c && c ≤ 'f' then c.toNat - 87
  else c.toNat - 55

/-- Whitespace skipped by `std::stoul` before the number. -/
def isSpaceChar (c : Char) : Bool :=
  c == ' ' || c == '\t' || c == '\n' || c == '\r' ||
  c == Char.ofNat 11 || c == Char.ofNat 12

/-- `std::stoul(s, nullptr, 16)` on Windows (32-bit `unsigned long`):
skip whitespace, optional sign, optional `0x` prefix, then the longest
run of hex digits.  `none` models a thrown `invalid_argument` (no digits)
or `out_of_range` (value above `ULONG_MAX`); both are caught by the
hooks' `catch (...)`. -/
def stoul16core (l : List Char) : Option Nat :=
  let l1 := l.dropWhile isSpaceChar
  let signed : Bool × List Char :=
    match l1 with
    | '-' :: rest => (true, rest)
    | '+' :: rest => (false, rest)
    | _ => (false, l1)
  let l2 := signed.2
  let l3 :=
    match l2 with
    | '0' :: x :: d :: rest =>
      if (x == 'x' || x == 'X') && isHexDigitChar d then d :: rest else l2
    | _ => l2
  let digits := l3.takeWhile isHexDigitChar
  if digits.isEmpty then none
  else
    let m := digits.foldl (fun acc c => 16 * acc + hexCharVal c) 0
    if 4294967295 < m then none
    else some (if signed.1 then (4294967296 - m) % 4294967296 else m)

/-- `std::stoul(s, nullptr, 16)` on a `std::string`. -/
def stoul16 (s : String) : Option Nat :=
  stoul16core s.data

/-- Lowercase hex digit character, as produced by `std::hex` without
`std::uppercase`. -/
def hexDigitLower (n : Nat) : Char :=
  if n < 10 then Char.ofNat (48 + n) else Char.ofNat (87 + n)

/-- Uppercase hex digit character, as produced by `std::hex` with
`std::uppercase`. -/
def hexDigitUpper (n : Nat) : Char :=
  if n < 10 then Char.ofNat (48 + n) else Char.ofNat (55 + n)

/-- `::toupper` on an ASCII character. -/
def cToUpper (c : Char) : Char :=
  if 'a' ≤ c && c ≤ 'z' then Char.ofNat (c.toNat - 32) else c

/-- `std::transform(s.begin(), s.end(), s.begin(), ::toupper)`. -/
def upperString (s : String) : String :=
  ⟨s.data.map cToUpper⟩

/-- `ss << std::hex << std::setfill('0') << std::setw(2) << n` for a byte
value: exactly two lowercase hex digits. -/
def hexPairLower (n : Nat) : String :=
  ⟨[hexDigitLower (n / 16), hexDigitLower (n % 16)]⟩

/-- Digits of `n` in base 16, uppercase, most significant first (empty
for 0); structural on a fuel argument that bounds the digit count. -/
def hexDigitsUpperAux : Nat → Nat → List Char
  | _, 0 => []
  | 0, _ + 1 => []
  | fuel + 1, n + 1 =>
    hexDigitsUpperAux fuel ((n + 1) / 16) ++ [hexDigitUpper ((n + 1) % 16)]

/-- `ss << std::hex << std::uppercase << n` for a `DWORD`. -/
def natToHexUpper (n : Nat) : String :=
  if n = 0 then "0" else ⟨hexDigitsUpperAux n n⟩

/-! ## Data model (`windows-spoofer.h`) -/

/-- `struct SpoofedIdentifiers`. -/
structure SpoofedIdentifiers where
  macAddress : String
  diskSerial : String
  volumeSerial : String
  gpuId : String
  biosSerial : String
  motherboardSerial : String
  active : Bool
  processId : Nat
deriving DecidableEq

/-- `struct OriginalIdentifiers`. -/
structure OriginalIdentifiers where
  macAddress : String
  diskSerial : String
  volumeSerial : String
  gpuId : String
  biosSerial : String
  motherboardSerial : String
deriving DecidableEq

/-- Zero-initialised `SpoofedIdentifiers` (`= {}` in C++). -/
def emptySpoofed : SpoofedIdentifiers :=
  ⟨"", "", "", "", "", "", false, 0⟩

/-- Zero-initialised `OriginalIdentifiers` (`= {}` in C++). -/
def emptyOriginal : OriginalIdentifiers :=
  ⟨"", "", "", "", "", ""⟩

/-- The mutable state of a `WindowsSpoofer` instance. -/
structure WindowsSpoofer where
  m_currentSpoofed : SpoofedIdentifiers
  m_originalValues : OriginalIdentifiers
  m_initialized : Bool
  m_hooksInstalled : Bool
  m_targetProcessId : Nat
deriving DecidableEq

/-- State built by the `WindowsSpoofer()` constructor. -/
def initialSpoofer : WindowsSpoofer :=
  ⟨emptySpoofed, emptyOriginal, false, false, 0⟩

/-- One `IP_ADAPTER_INFO` record of the linked adapter list: its reported
`AddressLength` and its `Address` byte buffer. -/
structure Adapter where
  addressLength : Nat
  address : List Nat
deriving DecidableEq

/-- Which of the two redirections a Detours transaction attaches. -/
inductive HookTarget where
  | volInfo
  | adapters
deriving DecidableEq

/-- Outcomes of the external collaborators consumed by one call into the
controller: the real identity queries used at capture time, module /
entry-point resolution, and the Detours transaction commits. -/
structure Env where
  adaptersCapture : Option (List Adapter)
  volumeCapture : Option Nat
  kernel32Present : Bool
  iphlpapiPresent : Bool
  getVolProcResolved : Bool
  getAdaptersProcResolved : Bool
  attachCommitOk : Bool
  removeCommitOk : Bool
deriving DecidableEq

/-! ## WindowsSpoofer state machine (`identifier-manager.cc`) -/

/-- `WindowsSpoofer::IsProcessAlive`, abstracted by the liveness oracle
`alive` (the `OpenProcess`/`GetExitCodeProcess` probe). -/
def IsProcessAlive (alive : Nat → Bool) (processId : Nat) : Bool :=
  alive processId

/-- `WindowsSpoofer::IsSpoofingActive`. -/
def IsSpoofingActive (alive : Nat → Bool) (s : WindowsSpoofer) : Bool :=
  s.m_initialized && s.m_currentSpoofed.active &&
    IsProcessAlive alive s.m_targetProcessId

/-- `WindowsSpoofer::GetCurrentSpoofedValues` (returns a copy). -/
def GetCurrentSpoofedValues (s : WindowsSpoofer) : SpoofedIdentifiers :=
  s.m_currentSpoofed

/-- `WindowsSpoofer::CanSafeMacSpoof` (constant true in the source). -/
def CanSafeMacSpoof : Bool := true

/-- `WindowsSpoofer::ApplyMacSpoofing` (placeholder, returns true). -/
def ApplyMacSpoofing (_newMac : String) : Bool := true

/-- `WindowsSpoofer::SpoofVolumeSerial` (handled by the hook, returns true). -/
def SpoofVolumeSerial (_newSerial : String) : Bool := true

/-- `WindowsSpoofer::SpoofDiskSerial` (placeholder, returns true). -/
def SpoofDiskSerial (_newSerial : String) : Bool := true

/-- `WindowsSpoofer::SpoofGpuId` (placeholder, returns true). -/
def SpoofGpuId (_newId : String) : Bool := true

/-- `WindowsSpoofer::SpoofWmiData` (placeholder, returns true). -/
def SpoofWmiData (_biosSerial _motherboardSerial : String) : Bool := true

/-- `WindowsSpoofer::GetCurrentMacAddress`: first adapter of a successful
real enumeration, formatted as colon-separated uppercase hex, otherwise
the fallback `"00:00:00:00:00:00"`. -/
def GetCurrentMacAddress (env : Env) : String :=
  match env.adaptersCapture with
  | some (a :: _) =>
    if a.addressLength = 6 then
      upperString (String.join ((List.range 6).map (fun i =>
        (if 0 < i then ":" else "") ++ hexPairLower (a.address.getD i 0 % 256))))
    else "00:00:00:00:00:00"
  | _ => "00:00:00:00:00:00"

/-- `WindowsSpoofer::GetCurrentVolumeSerial`: uppercase hex of the real
serial on success, otherwise the fallback `"00000000"`. -/
def GetCurrentVolumeSerial (env : Env) : String :=
  match env.volumeCapture with
  | some serial => natToHexUpper (serial % 4294967296)
  | none => "00000000"

/-- `WindowsSpoofer::GetCurrentDiskSerial` (fixed placeholder string). -/
def GetCurrentDiskSerial : String := "DISK_SERIAL_123"

/-- `WindowsSpoofer::GetOriginalIdentifiers`. -/
def GetOriginalIdentifiers (env : Env) : OriginalIdentifiers :=
  { macAddress := GetCurrentMacAddress env
    volumeSerial := GetCurrentVolumeSerial env
    diskSerial := GetCurrentDiskSerial
    gpuId := "ORIGINAL_GPU"
    biosSerial := "ORIGINAL_BIOS"
    motherboardSerial := "ORIGINAL_MB" }

/-- `WindowsSpoofer::SetupProcessMonitoring`. -/
def SetupProcessMonitoring (s : WindowsSpoofer) (processId : Nat) : WindowsSpoofer :=
  { s with m_targetProcessId := processId }

/-- `WindowsSpoofer::InitializeForProcess`. -/
def InitializeForProcess (env : Env) (s : WindowsSpoofer) (processId : Nat) :
    Bool × WindowsSpoofer :=
  if s.m_initialized = true ∧ s.m_targetProcessId = processId then (true, s)
  else
    let s1 := { s with m_originalValues := GetOriginalIdentifiers env }
    let s2 := { s1 with m_targetProcessId := processId, m_initialized := true }
    (true, SetupProcessMonitoring s2 processId)

/-- `WindowsSpoofer::InstallHooks`.  The returned list is the set of
redirections attached inside the single Detours transaction. -/
def InstallHooks (env : Env) (s : WindowsSpoofer) :
    Bool × WindowsSpoofer × List HookTarget :=
  if s.m_hooksInstalled = true then (true, s, [])
  else if env.kernel32Present = false then (false, s, [])
  else
    let adaptersResolved := env.iphlpapiPresent && env.getAdaptersProcResolved
    if env.getVolProcResolved = false then (false, s, [])
    else
      let attached := HookTarget.volInfo ::
        (if adaptersResolved = true then [HookTarget.adapters] else [])
      if env.attachCommitOk = true then
        (true, { s with m_hooksInstalled := true }, attached)
      else (false, s, attached)

/-- `WindowsSpoofer::RemoveHooks`. -/
def RemoveHooks (env : Env) (s : WindowsSpoofer) : Bool × WindowsSpoofer :=
  if s.m_hooksInstalled = false then (true, s)
  else if env.removeCommitOk = true then (true, { s with m_hooksInstalled := false })
  else (false, s)

/-- The per-category block of `WindowsSpoofer::ApplySpoofing` (source
lines 53-79): each non-empty category is attempted and its result is
accumulated into the combined success flag; empty categories are skipped. -/
def applyCategories (identifiers : SpoofedIdentifiers) : Bool :=
  let success := true
  let success := if identifiers.macAddress ≠ "" ∧ CanSafeMacSpoof = true then
      success && ApplyMacSpoofing identifiers.macAddress else success
  let success := if identifiers.volumeSerial ≠ "" then
      success && SpoofVolumeSerial identifiers.volumeSerial else success
  let success := if identifiers.diskSerial ≠ "" then
      success && SpoofDiskSerial identifiers.diskSerial else success
  let success := if identifiers.gpuId ≠ "" then
      success && SpoofGpuId identifiers.gpuId else success
  let success := if identifiers.biosSerial ≠ "" ∨ identifiers.motherboardSerial ≠ "" then
      success && SpoofWmiData identifiers.biosSerial identifiers.motherboardSerial
    else success
  success

/-- `WindowsSpoofer::ApplySpoofing`. -/
def ApplySpoofing (env : Env) (s : WindowsSpoofer)
    (identifiers : SpoofedIdentifiers) : Bool × WindowsSpoofer :=
  if s.m_initialized = false then (false, s)
  else
    let s1 := { s with m_currentSpoofed :=
      { identifiers with processId := s.m_targetProcessId, active := true } }
    let r := InstallHooks env s1
    if r.1 = false then
      (false, { r.2.1 with m_currentSpoofed :=
        { r.2.1.m_currentSpoofed with active := false } })
    else
      (applyCategories identifiers, r.2.1)

/-- `WindowsSpoofer::RestoreOriginalValues`. -/
def RestoreOriginalValues (env : Env) (s : WindowsSpoofer) : Bool × WindowsSpoofer :=
  if s.m_initialized = false ∨ s.m_currentSpoofed.active = false then (true, s)
  else
    let s1 := (RemoveHooks env s).2
    (true, { s1 with m_currentSpoofed := { s1.m_currentSpoofed with active := false } })

/-- `WindowsSpoofer::Cleanup`. -/
def Cleanup (env : Env) (s : WindowsSpoofer) : WindowsSpoofer :=
  if s.m_initialized = true then
    let s1 := (RestoreOriginalValues env s).2
    { s1 with m_initialized := false, m_targetProcessId := 0 }
  else s

/-- `WindowsSpoofer::GenerateRandomMac`: six draws of
`uniform_int_distribution<>(0, 255)` (modelled by `g i % 256`), each
rendered as two lowercase hex digits, colon-separated, then uppercased. -/
def GenerateRandomMac (g : Nat → Nat) : String :=
  upperString (String.join ((List.range 6).map (fun i =>
    (if 0 < i then ":" else "") ++ hexPairLower (g i % 256))))

/-- `WindowsSpoofer::GenerateRandomSerial`: `length` draws of
`uniform_int_distribution<>(0, 15)` (modelled by `g i % 16`), each
rendered as one uppercase hex digit. -/
def GenerateRandomSerial (g : Nat → Nat) (length : Nat) : String :=
  ⟨(List.range length).map (fun i => hexDigitUpper (g i % 16))⟩

/-- `WindowsSpoofer::GenerateRandomIdentifiers`; each helper constructs
its own generator, modelled by six independent draw streams. -/
def GenerateRandomIdentifiers (gmac gdisk gvol ggpu gbios gmb : Nat → Nat) :
    SpoofedIdentifiers :=
  { macAddress := GenerateRandomMac gmac
    diskSerial := GenerateRandomSerial gdisk 16
    volumeSerial := GenerateRandomSerial gvol 8
    gpuId := GenerateRandomSerial ggpu 12
    biosSerial := GenerateRandomSerial gbios 10
    motherboardSerial := GenerateRandomSerial gmb 14
    active := false
    processId := 0 }

/-! ## API hooks (`api-hooks.cc`) -/

/-- `HookedGetVolumeInformationA`.  The real query has already populated
the out-parameters: `realResult` is its return code and `realSerial` the
value it wrote through `lpVolumeSerialNumber` (when that pointer,
`serialPtrPresent`, is non-null).  `g` is `g_spooferInstance`. -/
def HookedGetVolumeInformationA (g : Option WindowsSpoofer) (alive : Nat → Bool)
    (serialPtrPresent : Bool) (realResult : Bool) (realSerial : Nat) : Bool × Nat :=
  let serial :=
    match g with
    | some sp =>
      if IsSpoofingActive alive sp = true ∧ serialPtrPresent = true then
        let current := GetCurrentSpoofedValues sp
        if current.volumeSerial ≠ "" then
          match stoul16 current.volumeSerial with
          | some v => v
          | none => realSerial
        else realSerial
      else realSerial
    | none => realSerial
  (realResult, serial)

/-- `mac.substr(i * 2, 2)` passed to `std::stoul(·, nullptr, 16)` for
byte `i` of the spoofed hardware address. -/
def parsePair (mac : List Char) (i : Nat) : Option Nat :=
  stoul16core ((mac.drop (2 * i)).take 2)

/-- The per-adapter overwrite loop of `HookedGetAdaptersInfo`:
`for (int i = 0; i < 6 && i < AddressLength; i++)` writing
`Address[i] = (BYTE)stoul(mac.substr(i*2, 2), nullptr, 16)`, breaking
out of the loop on a parse failure. -/
def writeBytesAux (mac : List Char) (addrLen : Nat) :
    Nat → Nat → List Nat → List Nat
  | 0, _, addr => addr
  | fuel + 1, i, addr =>
    if i < 6 ∧ i < addrLen then
      match parsePair mac i with
      | some v => writeBytesAux mac addrLen fuel (i + 1) (addr.set i (v % 256))
      | none => addr
    else addr

/-- The loop entered at index `i`; `6 - i` iterations remain. -/
def writeBytes (mac : List Char) (addrLen : Nat) (i : Nat) (addr : List Nat) :
    List Nat :=
  writeBytesAux mac addrLen (6 - i) i addr

/-- The body of the adapter walk for one record: the `mac.length() >= 12`
guard, then the byte overwrite loop. -/
def spoofOneAdapter (mac : String) (a : Adapter) : Adapter :=
  if 12 ≤ mac.length then
    { a with address := writeBytes mac.data a.addressLength 0 a.address }
  else a

/-- `HookedGetAdaptersInfo`.  The real query has already run:
`realResult` is its return code (`NO_ERROR = 0` on success) and
`adapterInfo` the linked record list behind the caller's buffer pointer
(`none` models a null `AdapterInfo`). -/
def HookedGetAdaptersInfo (g : Option WindowsSpoofer) (alive : Nat → Bool)
    (adapterInfo : Option (List Adapter)) (realResult : Nat) :
    Nat × Option (List Adapter) :=
  let modified :=
    match g, adapterInfo with
    | some sp, some adapters =>
      if IsSpoofingActive alive sp = true ∧ realResult = 0 then
        let current := GetCurrentSpoofedValues sp
        if current.macAddress ≠ "" then
          some (adapters.map (spoofOneAdapter current.macAddress))
        else adapterInfo
      else adapterInfo
    | _, _ => adapterInfo
  (realResult, modified)

/-! ## Host-binding layer (`spoofer.cc`) -/

/-- Outcome of a NAN-bound operation: a returned value, or a thrown
host-level error (`Nan::ThrowError`). -/
inductive NanResult (α : Type) where
  | ret (v : α)
  | thrown (msg : String)
deriving DecidableEq

/-- The `{active, identifiers?}` object built by `GetSpoofingStatus`. -/
structure SpoofingStatus where
  active : Bool
  identifiers : Option SpoofedIdentifiers
deriving DecidableEq

/-- `NAN_METHOD(InitializeForProcess)`: creates the `g_spoofer` instance
when absent, then delegates. -/
def NanInitializeForProcess (env : Env) (g : Option WindowsSpoofer) (pid : Nat) :
    NanResult Bool × Option WindowsSpoofer :=
  let sp := g.getD initialSpoofer
  let r := InitializeForProcess env sp pid
  (NanResult.ret r.1, some r.2)

/-- `NAN_METHOD(ApplySpoofing)`: throws when `g_spoofer` is null; the
marshalled struct starts zeroed with `active = true` before delegating. -/
def NanApplySpoofing (env : Env) (g : Option WindowsSpoofer)
    (ids : SpoofedIdentifiers) : NanResult Bool × Option WindowsSpoofer :=
  match g with
  | none => (NanResult.thrown "Spoofer not initialized", none)
  | some sp =>
    let marshalled := { ids with active := true, processId := 0 }
    let r := ApplySpoofing env sp marshalled
    (NanResult.ret r.1, some r.2)

/-- `NAN_METHOD(RestoreOriginalIdentifiers)`: throws when `g_spoofer` is
null, otherwise delegates. -/
def NanRestoreOriginalIdentifiers (env : Env) (g : Option WindowsSpoofer) :
    NanResult Bool × Option WindowsSpoofer :=
  match g with
  | none => (NanResult.thrown "Spoofer not initialized", none)
  | some sp =>
    let r := RestoreOriginalValues env sp
    (NanResult.ret r.1, some r.2)

/-- `NAN_METHOD(Cleanup)`: runs `Cleanup` on the instance when present,
destroys the instance, and always returns true. -/
def NanCleanup (env : Env) (g : Option WindowsSpoofer) :
    NanResult Bool × Option WindowsSpoofer :=
  match g with
  | some sp =>
    let _ := Cleanup env sp
    (NanResult.ret true, none)
  | none => (NanResult.ret true, none)

/-- `NAN_METHOD(GetSpoofingStatus)`. -/
def NanGetSpoofingStatus (alive : Nat → Bool) (g : Option WindowsSpoofer) :
    SpoofingStatus :=
  match g with
  | none => ⟨false, none⟩
  | some sp =>
    let isActive := IsSpoofingActive alive sp
    ⟨isActive, if isActive = true then some (GetCurrentSpoofedValues sp) else none⟩

/-! ## Operation traces over the controller -/

/-- One controller operation together with the external outcomes it
observes. -/
inductive Op where
  | init (env : Env) (pid : Nat)
  | apply (env : Env) (ids : SpoofedIdentifiers)
  | restore (env : Env)
  | cleanup (env : Env)
deriving DecidableEq

/-- Run one operation; the second component is ghost state recording the
process id of the most recent successful `InitializeForProcess`. -/
def runOpG (p : WindowsSpoofer × Option Nat) (op : Op) :
    WindowsSpoofer × Option Nat :=
  match op with
  | .init env pid =>
    let r := InitializeForProcess env p.1 pid
    (r.2, if r.1 = true then some pid else p.2)
  | .apply env ids => ((ApplySpoofing env p.1 ids).2, p.2)
  | .restore env => ((RestoreOriginalValues env p.1).2, p.2)
  | .cleanup env => (Cleanup env p.1, p.2)

/-- Guard excluding the one behaviour the source leaves undefined:
re-initialising for a different process while a spoof set is active. -/
def opGuard (p : WindowsSpoofer × Option Nat) : Op → Bool
  | .init _ pid => !p.1.m_currentSpoofed.active || (pid == p.1.m_currentSpoofed.processId)
  | _ => true

/-- A list of operations all of whose steps satisfy `opGuard` from `p`. -/
def safeFrom (p : WindowsSpoofer × Option Nat) : List Op → Bool
  | [] => true
  | op :: ops => opGuard p op && safeFrom (runOpG p op) ops

/-! ## Output well-formedness predicates -/

/-- An uppercase hexadecimal digit character. -/
def isUpperHexDigit (c : Char) : Bool :=
  ('0' ≤ c && c ≤ '9') || ('A' ≤ c && c ≤ 'F')

/-- A string consisting only of uppercase hexadecimal digits. -/
def isUpperHexString (s : String) : Bool :=
  s.data.all isUpperHexDigit

/-- The character pattern `XX:XX:XX:XX:XX:XX` with uppercase hex digits. -/
def macFormatChars : List Char → Bool
  | [a1, a2, s1, b1, b2, s2, c1, c2, s3, d1, d2, s4, e1, e2, s5, f1, f2] =>
    isUpperHexDigit a1 && isUpperHexDigit a2 && (s1 == ':') &&
    isUpperHexDigit b1 && isUpperHexDigit b2 && (s2 == ':') &&
    isUpperHexDigit c1 && isUpperHexDigit c2 && (s3 == ':') &&
    isUpperHexDigit d1 && isUpperHexDigit d2 && (s4 == ':') &&
    isUpperHexDigit e1 && isUpperHexDigit e2 && (s5 == ':') &&
    isUpperHexDigit f1 && isUpperHexDigit f2
  | _ => false

/-- A string matching `XX:XX:XX:XX:XX:XX` with uppercase hex digits. -/
def isMacFormat (s : String) : Bool :=
  macFormatChars s.data

/-! ## Concrete fixtures -/

/-- Liveness oracle: every process is alive. -/
def aliveAll : Nat → Bool := fun _ => true

/-- Liveness oracle: every process has terminated. -/
def aliveNone : Nat → Bool := fun _ => false

/-- Environment in which every external collaborator succeeds (the
capture queries fail, which `InitializeForProcess` absorbs). -/
def goodEnv : Env := ⟨none, none, true, true, true, true, true, true⟩

/-- Environment in which the Detours detach transaction fails to commit. -/
def badRemoveEnv : Env := ⟨none, none, true, true, true, true, true, false⟩

/-- A spoof request with a volume serial and hardware address. -/
def idsW : SpoofedIdentifiers :=
  { emptySpoofed with macAddress := "AABBCCDDEEFF", volumeSerial := "DEADBEEF" }

/-- An initialized instance with an active spoof set carrying volume
serial `DEADBEEF` for process 1. -/
def spW1 : WindowsSpoofer :=
  { m_currentSpoofed :=
      { emptySpoofed with volumeSerial := "DEADBEEF", active := true, processId := 1 },
    m_originalValues := emptyOriginal,
    m_initialized := true,
    m_hooksInstalled := true,
    m_targetProcessId := 1 }

/-- An initialized instance with an active spoof set whose hardware
address string `"AA"` is non-empty but shorter than 12 characters. -/
def spShortMac : WindowsSpoofer :=
  { m_currentSpoofed :=
      { emptySpoofed with macAddress := "AA", active := true, processId := 7 },
    m_originalValues := emptyOriginal,
    m_initialized := true,
    m_hooksInstalled := true,
    m_targetProcessId := 7 }

/-- An initialized instance with an active spoof set carrying hardware
address `AABBCCDDEEFF` for process 3. -/
def spW2 : WindowsSpoofer :=
  { m_currentSpoofed :=
      { emptySpoofed with macAddress := "AABBCCDDEEFF", active := true, processId := 3 },
    m_originalValues := emptyOriginal,
    m_initialized := true,
    m_hooksInstalled := true,
    m_targetProcessId := 3 }

/-- A concrete adapter record with six real address bytes. -/
def adapterW : Adapter := ⟨6, [1, 2, 3, 4, 5, 6]⟩

/-! ## Characterisation lemmas -/

lemma init_fst (env : Env) (s : WindowsSpoofer) (pid : Nat) :
    (InitializeForProcess env s pid).1 = true := by
  unfold InitializeForProcess
  split <;> rfl

lemma init_spoofed (env : Env) (s : WindowsSpoofer) (pid : Nat) :
    (InitializeForProcess env s pid).2.m_currentSpoofed = s.m_currentSpoofed := by
  unfold InitializeForProcess SetupProcessMonitoring
  split <;> rfl

lemma init_target (env : Env) (s : WindowsSpoofer) (pid : Nat) :
    (InitializeForProcess env s pid).2.m_targetProcessId = pid := by
  unfold InitializeForProcess SetupProcessMonitoring
  split
  · rename_i h
    exact h.2
  · rfl

lemma init_initialized (env : Env) (s : WindowsSpoofer) (pid : Nat) :
    (InitializeForProcess env s pid).2.m_initialized = true := by
  unfold InitializeForProcess SetupProcessMonitoring
  split
  · rename_i h
    exact h.1
  · rfl

lemma installHooks_preserves (env : Env) (s : WindowsSpoofer) :
    (InstallHooks env s).2.1.m_currentSpoofed = s.m_currentSpoofed ∧
    (InstallHooks env s).2.1.m_initialized = s.m_initialized ∧
    (InstallHooks env s).2.1.m_targetProcessId = s.m_targetProcessId ∧
    (InstallHooks env s).2.1.m_originalValues = s.m_originalValues := by
  unfold InstallHooks
  split_ifs <;> simp

lemma removeHooks_preserves (env : Env) (s : WindowsSpoofer) :
    (RemoveHooks env s).2.m_currentSpoofed = s.m_currentSpoofed ∧
    (RemoveHooks env s).2.m_initialized = s.m_initialized ∧
    (RemoveHooks env s).2.m_targetProcessId = s.m_targetProcessId ∧
    (RemoveHooks env s).2.m_originalValues = s.m_originalValues := by
  unfold RemoveHooks
  split_ifs <;> simp

/-- The state `ApplySpoofing` hands to `InstallHooks`: the request
stamped with the controller's pid and the active flag. -/
def stamped (s : WindowsSpoofer) (ids : SpoofedIdentifiers) : WindowsSpoofer :=
  { s with m_currentSpoofed :=
    { ids with processId := s.m_targetProcessId, active := true } }

lemma applyCategories_true (ids : SpoofedIdentifiers) : applyCategories ids = true := by
  simp [applyCategories, ApplyMacSpoofing, SpoofVolumeSerial, SpoofDiskSerial,
    SpoofGpuId, SpoofWmiData, CanSafeMacSpoof, ite_self]

lemma applySpoofing_eq (env : Env) (s : WindowsSpoofer) (ids : SpoofedIdentifiers) :
    ApplySpoofing env s ids =
      if s.m_initialized = false then (false, s)
      else if (InstallHooks env (stamped s ids)).1 = false then
        (false, { (InstallHooks env (stamped s ids)).2.1 with m_currentSpoofed :=
          { (InstallHooks env (stamped s ids)).2.1.m_currentSpoofed with active := false } })
      else (true, (InstallHooks env (stamped s ids)).2.1) := by
  simp only [ApplySpoofing, applyCategories_true, stamped]

lemma apply_init_false (env : Env) (s : WindowsSpoofer) (ids : SpoofedIdentifiers)
    (h : s.m_initialized = false) : ApplySpoofing env s ids = (false, s) := by
  rw [applySpoofing_eq, if_pos h]

lemma apply_success_state (env : Env) (s : WindowsSpoofer) (ids : SpoofedIdentifiers)
    (h : (ApplySpoofing env s ids).1 = true) :
    (ApplySpoofing env s ids).2.m_initialized = true ∧
    (ApplySpoofing env s ids).2.m_currentSpoofed.active = true ∧
    (ApplySpoofing env s ids).2.m_currentSpoofed.processId = s.m_targetProcessId ∧
    (ApplySpoofing env s ids).2.m_targetProcessId = s.m_targetProcessId ∧
    (ApplySpoofing env s ids).2.m_currentSpoofed.macAddress = ids.macAddress ∧
    (ApplySpoofing env s ids).2.m_currentSpoofed.volumeSerial = ids.volumeSerial := by
  have h1 : s.m_initialized = true := by
    by_contra hc
    have h0 : s.m_initialized = false := by
      revert hc
      cases s.m_initialized <;> simp
    rw [applySpoofing_eq, if_pos h0] at h
    simp at h
  have h0 : ¬ s.m_initialized = false := by simp [h1]
  have hr : ¬ (InstallHooks env (stamped s ids)).1 = false := by
    by_contra hr
    rw [applySpoofing_eq, if_neg h0, if_pos hr] at h
    simp at h
  have hs2 : (ApplySpoofing env s ids).2 = (InstallHooks env (stamped s ids)).2.1 := by
    rw [applySpoofing_eq, if_neg h0, if_neg hr]
  have hp := installHooks_preserves env (stamped s ids)
  rw [hs2, hp.1, hp.2.1, hp.2.2.1]
  simp [stamped, h1]

lemma restore_proj (env : Env) (s : WindowsSpoofer) :
    (RestoreOriginalValues env s).2.m_initialized = s.m_initialized ∧
    (RestoreOriginalValues env s).2.m_targetProcessId = s.m_targetProcessId ∧
    (RestoreOriginalValues env s).2.m_currentSpoofed.processId =
      s.m_currentSpoofed.processId ∧
    ((RestoreOriginalValues env s).2.m_currentSpoofed.active = true →
      s.m_currentSpoofed.active = true) ∧
    (RestoreOriginalValues env s).1 = true := by
  unfold RestoreOriginalValues
  split
  · simp
  · have hp := removeHooks_preserves env s
    simp [hp.1, hp.2.1, hp.2.2.1]

lemma restore_active_false (env : Env) (s : WindowsSpoofer)
    (h : s.m_initialized = true) :
    (RestoreOriginalValues env s).2.m_currentSpoofed.active = false := by
  unfold RestoreOriginalValues
  split
  · rename_i hc
    rcases hc with hc | hc
    · rw [h] at hc
      exact absurd hc (by simp)
    · simpa using hc
  · simp

lemma cleanup_eq_init (env : Env) (s : WindowsSpoofer) (h : s.m_initialized = true) :
    Cleanup env s = { (RestoreOriginalValues env s).2 with
      m_initialized := false, m_targetProcessId := 0 } := by
  unfold Cleanup
  rw [if_pos h]

lemma cleanup_eq_noinit (env : Env) (s : WindowsSpoofer)
    (h : ¬ s.m_initialized = true) : Cleanup env s = s := by
  unfold Cleanup
  rw [if_neg h]

/-! ## Claim C1 -/

/-- Claim C1: every intercepted volume-information query first invokes the
real query and returns its result code unchanged; afterwards, when the
spoofer instance exists, spoofing is active and the spoof set's
`volumeSerial` is non-empty, the serial out-parameter is overwritten with
the base-16 (`stoul`) parse of that string; when that parse fails — as on
`"ZZZZ"` — the real serial is left untouched and no error reaches the
query's caller. -/
theorem claim1_volume_hook (g : Option WindowsSpoofer) (alive : Nat → Bool)
    (ptr : Bool) (realResult : Bool) (realSerial : Nat) :
    (HookedGetVolumeInformationA g alive ptr realResult realSerial).1 = realResult ∧
    (∀ sp, g = some sp → ptr = true → IsSpoofingActive alive sp = true →
      sp.m_currentSpoofed.volumeSerial ≠ "" →
      (∀ v, stoul16 sp.m_currentSpoofed.volumeSerial = some v →
        (HookedGetVolumeInformationA g alive ptr realResult realSerial).2 = v) ∧
      (stoul16 sp.m_currentSpoofed.volumeSerial = none →
        (HookedGetVolumeInformationA g alive ptr realResult realSerial).2 = realSerial)) ∧
    stoul16 "ZZZZ" = none := by
  refine ⟨?_, ?_, by decide⟩
  · cases g <;> rfl
  · rintro sp rfl rfl hact hne
    constructor
    · intro v hv
      simp [HookedGetVolumeInformationA, GetCurrentSpoofedValues, hact, hne, hv]
    · intro hv
      simp [HookedGetVolumeInformationA, GetCurrentSpoofedValues, hact, hne, hv]

/-- Witness: the hook applied to an active instance spoofing `DEADBEEF`
rewrites the serial to `0xDEADBEEF`. -/
theorem claim1_volume_hook_witness :
    (HookedGetVolumeInformationA (some spW1) aliveAll true true 5).2 = 3735928559 :=
  ((claim1_volume_hook (some spW1) aliveAll true true 5).2.1 spW1 rfl rfl (by decide)
    (by decide)).1 3735928559 (by decide)

/-! ## Claim C9 -/

/-- Claim C9: `InitializeForProcess` returns true for every process id,
state and environment — liveness is never consulted and capture failures
never propagate; when the capture queries fail, the Original set is filled
with the fixed fallback strings. -/
theorem claim9_initialize_never_fails (env : Env) (s : WindowsSpoofer) (pid : Nat) :
    (InitializeForProcess env s pid).1 = true ∧
    (env.adaptersCapture = none → env.volumeCapture = none → s.m_initialized = false →
      (InitializeForProcess env s pid).2.m_originalValues =
        { macAddress := "00:00:00:00:00:00", diskSerial := "DISK_SERIAL_123",
          volumeSerial := "00000000", gpuId := "ORIGINAL_GPU",
          biosSerial := "ORIGINAL_BIOS", motherboardSerial := "ORIGINAL_MB" }) := by
  constructor
  · exact init_fst env s pid
  · intro ha hv h0
    have hns : ¬(s.m_initialized = true ∧ s.m_targetProcessId = pid) := by
      simp [h0]
    unfold InitializeForProcess SetupProcessMonitoring
    rw [if_neg hns]
    simp [GetOriginalIdentifiers, GetCurrentMacAddress, GetCurrentVolumeSerial,
      GetCurrentDiskSerial, ha, hv]

/-- Witness: initialising a fresh instance for pid 5 in an environment
where both capture queries fail yields the fallback Original set. -/
theorem claim9_witness :
    (InitializeForProcess goodEnv initialSpoofer 5).2.m_originalValues =
      { macAddress := "00:00:00:00:00:00", diskSerial := "DISK_SERIAL_123",
        volumeSerial := "00000000", gpuId := "ORIGINAL_GPU",
        biosSerial := "ORIGINAL_BIOS", motherboardSerial := "ORIGINAL_MB" } :=
  (claim9_initialize_never_fails goodEnv initialSpoofer 5).2 rfl rfl rfl

/-! ## Claim C6 -/

/-- Claim C6: hook installation resolves the two entry points by name;
it fails with no state change when the volume-information entry point
cannot be resolved (including when its module is missing), while an
absent `iphlpapi` module merely skips the adapter interception — the
remaining redirection is attached alone in the single transaction and
installation still succeeds. -/
theorem claim6_install_resolution (env : Env) (s : WindowsSpoofer) :
    (s.m_hooksInstalled = false → env.getVolProcResolved = false →
      InstallHooks env s = (false, s, [])) ∧
    (s.m_hooksInstalled = false → env.kernel32Present = false →
      InstallHooks env s = (false, s, [])) ∧
    (s.m_hooksInstalled = false → env.kernel32Present = true →
      env.getVolProcResolved = true → env.iphlpapiPresent = false →
      env.attachCommitOk = true →
      InstallHooks env s = (true, { s with m_hooksInstalled := true },
        [HookTarget.volInfo])) ∧
    (s.m_hooksInstalled = false → env.kernel32Present = true →
      env.getVolProcResolved = true → env.iphlpapiPresent = true →
      env.getAdaptersProcResolved = true → env.attachCommitOk = true →
      InstallHooks env s = (true, { s with m_hooksInstalled := true },
        [HookTarget.volInfo, HookTarget.adapters])) := by
  refine ⟨?_, ?_, ?_, ?_⟩
  · intro h1 h2
    by_cases hk : env.kernel32Present = false <;>
      simp [InstallHooks, h1, h2, hk]
  · intro h1 h2
    simp [InstallHooks, h1, h2]
  · intro h1 h2 h3 h4 h5
    simp [InstallHooks, h1, h2, h3, h4, h5]
  · intro h1 h2 h3 h4 h5 h6
    simp [InstallHooks, h1, h2, h3, h4, h5, h6]

/-- Witness: with `iphlpapi` absent and everything else resolving,
installation succeeds attaching only the volume interception. -/
theorem claim6_witness :
    InstallHooks ⟨none, none, true, false, true, true, true, true⟩ initialSpoofer =
      (true, { initialSpoofer with m_hooksInstalled := true },
        [HookTarget.volInfo]) :=
  (claim6_install_resolution ⟨none, none, true, false, true, true, true, true⟩
    initialSpoofer).2.2.1 rfl rfl rfl rfl rfl

/-! ## Claim C10 -/

/-- Claim C10: `RestoreOriginalValues`, called when initialized with an
active spoof, ignores the result of hook removal: when the detach
transaction fails to commit, the hooks stay marked installed, yet the
spoof set is marked inactive and the call still returns true, so status
reads inactive while the interceptions remain in place. -/
theorem claim10_restore_ignores_removal (env : Env) (sp : WindowsSpoofer)
    (h1 : sp.m_initialized = true) (h2 : sp.m_currentSpoofed.active = true)
    (h3 : sp.m_hooksInstalled = true) (h4 : env.removeCommitOk = false) :
    RestoreOriginalValues env sp =
      (true, { sp with m_currentSpoofed :=
        { sp.m_currentSpoofed with active := false } }) ∧
    (RestoreOriginalValues env sp).2.m_hooksInstalled = true ∧
    (∀ alive, IsSpoofingActive alive (RestoreOriginalValues env sp).2 = false) := by
  have hR : RemoveHooks env sp = (false, sp) := by
    unfold RemoveHooks
    rw [if_neg (by simp [h3]), if_neg (by simp [h4])]
  have hmain : RestoreOriginalValues env sp =
      (true, { sp with m_currentSpoofed :=
        { sp.m_currentSpoofed with active := false } }) := by
    unfold RestoreOriginalValues
    rw [if_neg (by simp [h1, h2])]
    simp [hR]
  refine ⟨hmain, ?_, ?_⟩
  · rw [hmain]
    exact h3
  · intro alive
    rw [hmain]
    simp [IsSpoofingActive]

/-- Witness: concrete failing detach leaves hooks installed while the
spoof set reads inactive and the call returns true. -/
theorem claim10_witness :
    RestoreOriginalValues badRemoveEnv spW1 =
      (true, { spW1 with m_currentSpoofed :=
        { spW1.m_currentSpoofed with active := false } }) :=
  (claim10_restore_ignores_removal badRemoveEnv spW1 rfl rfl rfl rfl).1

/-! ## Claim C4 -/

/-- Claim C4 (amended): before a successful initialise, `ApplySpoofing`
on an existing instance returns false with no state change, while
`RestoreOriginalValues` is a no-op returning true (success, not failure);
when no instance exists at all, the binding layer throws a host-level
error from both operations instead of returning a boolean; with an
instance present, both bound operations always return a boolean. -/
theorem claim4_sequence_errors (env : Env) (s : WindowsSpoofer)
    (ids : SpoofedIdentifiers) (h : s.m_initialized = false) :
    ApplySpoofing env s ids = (false, s) ∧
    RestoreOriginalValues env s = (true, s) ∧
    NanApplySpoofing env none ids = (NanResult.thrown "Spoofer not initialized", none) ∧
    NanRestoreOriginalIdentifiers env none =
      (NanResult.thrown "Spoofer not initialized", none) ∧
    (∀ sp, ∃ b s2, NanApplySpoofing env (some sp) ids = (NanResult.ret b, some s2)) ∧
    (∀ sp, ∃ b s2, NanRestoreOriginalIdentifiers env (some sp) =
      (NanResult.ret b, some s2)) := by
  refine ⟨apply_init_false env s ids h, ?_, rfl, rfl, ?_, ?_⟩
  · unfold RestoreOriginalValues
    rw [if_pos (Or.inl h)]
  · intro sp
    exact ⟨_, _, rfl⟩
  · intro sp
    exact ⟨_, _, rfl⟩

/-- Counterexample to claim C4 as stated: before initialisation the
restore operation returns true — success, not failure — and with no
instance the bound applySpoofing throws instead of returning a boolean. -/
theorem claim4_counterexample :
    (RestoreOriginalValues goodEnv initialSpoofer).1 ≠ false ∧
    (RestoreOriginalValues goodEnv initialSpoofer).1 = true ∧
    NanApplySpoofing goodEnv none idsW =
      (NanResult.thrown "Spoofer not initialized", none) := by
  exact ⟨by decide, by decide, rfl⟩

/-- Witness: apply before initialise on a fresh instance fails with no
state change. -/
theorem claim4_witness :
    ApplySpoofing goodEnv initialSpoofer idsW = (false, initialSpoofer) :=
  (claim4_sequence_errors goodEnv initialSpoofer idsW rfl).1

lemma restore_removes_hooks (env : Env) (s : WindowsSpoofer)
    (h1 : s.m_initialized = true) (h2 : s.m_currentSpoofed.active = true)
    (h3 : env.removeCommitOk = true) :
    (RestoreOriginalValues env s).2.m_hooksInstalled = false := by
  unfold RestoreOriginalValues
  rw [if_neg (by simp [h1, h2])]
  unfold RemoveHooks
  by_cases hh : s.m_hooksInstalled = false
  · rw [if_pos hh]
    simpa using hh
  · rw [if_neg hh, if_pos h3]

/-! ## Claim C5 -/

/-- Claim C5: the exposed cleanup, from any state, first performs the
restore step — clearing the active flag, and removing the interceptions
when the detach transaction commits — and then discards all captured
state: the binding destroys the instance, so a following status read
reports inactive and the next controller is built from the pristine
initial state, whose Original and Spoofed sets (identifier strings
included) are empty, i.e. the controller is back to Uninitialized. -/
theorem claim5_cleanup (env : Env) (g : Option WindowsSpoofer) :
    NanCleanup env g = (NanResult.ret true, none) ∧
    (∀ sp, sp.m_initialized = true →
      Cleanup env sp = { (RestoreOriginalValues env sp).2 with
        m_initialized := false, m_targetProcessId := 0 }) ∧
    (∀ sp, sp.m_initialized = true →
      (Cleanup env sp).m_currentSpoofed.active = false ∧
      (Cleanup env sp).m_initialized = false ∧
      (Cleanup env sp).m_targetProcessId = 0) ∧
    (∀ sp, sp.m_initialized = true → sp.m_currentSpoofed.active = true →
      env.removeCommitOk = true → (Cleanup env sp).m_hooksInstalled = false) ∧
    (∀ alive, NanGetSpoofingStatus alive none = ⟨false, none⟩) ∧
    initialSpoofer.m_currentSpoofed = emptySpoofed ∧
    initialSpoofer.m_originalValues = emptyOriginal ∧
    (∀ pid, NanInitializeForProcess env none pid =
      (NanResult.ret true, some (InitializeForProcess env initialSpoofer pid).2)) := by
  refine ⟨?_, ?_, ?_, ?_, fun alive => rfl, rfl, rfl, ?_⟩
  · cases g <;> rfl
  · intro sp h
    exact cleanup_eq_init env sp h
  · intro sp h
    rw [cleanup_eq_init env sp h]
    refine ⟨?_, rfl, rfl⟩
    simpa using restore_active_false env sp h
  · intro sp h1 h2 h3
    rw [cleanup_eq_init env sp h1]
    simpa using restore_removes_hooks env sp h1 h2 h3
  · intro pid
    simp [NanInitializeForProcess, Option.getD, init_fst]

/-- Witness: cleaning up an initialized, actively spoofing instance
clears the active flag and returns the state machine to Uninitialized. -/
theorem claim5_witness :
    (Cleanup goodEnv spW1).m_currentSpoofed.active = false ∧
    (Cleanup goodEnv spW1).m_initialized = false ∧
    (Cleanup goodEnv spW1).m_targetProcessId = 0 :=
  (claim5_cleanup goodEnv (some spW1)).2.2.1 spW1 rfl

/-! ## Claim C3 -/

/-- Claim C3: `IsSpoofingActive` is true exactly when the controller is
initialized, the current spoof set's active flag is set, and the target
process id is alive per the liveness probe at the moment of the call;
consequently, after a successful apply, termination of the target process
flips the reading from true to false with no restore call and no other
state change (the controller state is the same in both readings). -/
theorem claim3_liveness (alive : Nat → Bool) (s : WindowsSpoofer) :
    (IsSpoofingActive alive s = true ↔
      (s.m_initialized = true ∧ s.m_currentSpoofed.active = true ∧
        alive s.m_targetProcessId = true)) ∧
    (∀ env s0 ids s2 alive2, ApplySpoofing env s0 ids = (true, s2) →
      alive s2.m_targetProcessId = true → alive2 s2.m_targetProcessId = false →
      IsSpoofingActive alive s2 = true ∧ IsSpoofingActive alive2 s2 = false) := by
  constructor
  · simp [IsSpoofingActive, IsProcessAlive, Bool.and_eq_true, and_assoc]
  · intro env s0 ids s2 alive2 happ h1 h2
    have hfst : (ApplySpoofing env s0 ids).1 = true := by rw [happ]
    have hsnd : (ApplySpoofing env s0 ids).2 = s2 := by rw [happ]
    have hst := apply_success_state env s0 ids hfst
    rw [hsnd] at hst
    constructor
    · simp [IsSpoofingActive, IsProcessAlive, hst.1, hst.2.1, h1]
    · simp [IsSpoofingActive, IsProcessAlive, h2]

/-- State after initialising for pid 5 and successfully applying `idsW`. -/
def spApplied : WindowsSpoofer :=
  (ApplySpoofing goodEnv (InitializeForProcess goodEnv initialSpoofer 5).2 idsW).2

/-- Witness: after a concrete successful apply, the status reads true
while the owner is alive and false once it has terminated, on the same
controller state. -/
theorem claim3_witness :
    IsSpoofingActive aliveAll spApplied = true ∧
    IsSpoofingActive aliveNone spApplied = false :=
  (claim3_liveness aliveAll spApplied).2 goodEnv
    (InitializeForProcess goodEnv initialSpoofer 5).2 idsW spApplied aliveNone
    (by decide) (by decide) (by decide)

/-! ## Claim C8 -/

lemma upperHexDigit_of_lt16 : ∀ n, n < 16 → isUpperHexDigit (hexDigitUpper n) = true := by
  decide

lemma upperHex_cToUpper_lower : ∀ n, n < 16 →
    isUpperHexDigit (cToUpper (hexDigitLower n)) = true := by
  decide

lemma hxA (n : Nat) : isUpperHexDigit (cToUpper (hexDigitLower (n % 256 / 16))) = true :=
  upperHex_cToUpper_lower _ (by omega)

lemma hxB (n : Nat) : isUpperHexDigit (cToUpper (hexDigitLower (n % 256 % 16))) = true :=
  upperHex_cToUpper_lower _ (by omega)

lemma genMac_format (g : Nat → Nat) : isMacFormat (GenerateRandomMac g) = true := by
  show macFormatChars
    [cToUpper (hexDigitLower (g 0 % 256 / 16)), cToUpper (hexDigitLower (g 0 % 256 % 16)),
     cToUpper ':',
     cToUpper (hexDigitLower (g 1 % 256 / 16)), cToUpper (hexDigitLower (g 1 % 256 % 16)),
     cToUpper ':',
     cToUpper (hexDigitLower (g 2 % 256 / 16)), cToUpper (hexDigitLower (g 2 % 256 % 16)),
     cToUpper ':',
     cToUpper (hexDigitLower (g 3 % 256 / 16)), cToUpper (hexDigitLower (g 3 % 256 % 16)),
     cToUpper ':',
     cToUpper (hexDigitLower (g 4 % 256 / 16)), cToUpper (hexDigitLower (g 4 % 256 % 16)),
     cToUpper ':',
     cToUpper (hexDigitLower (g 5 % 256 / 16)), cToUpper (hexDigitLower (g 5 % 256 % 16))] = true
  simp only [macFormatChars, hxA, hxB]
  decide

lemma genSerial_length (g : Nat → Nat) (len : Nat) :
    (GenerateRandomSerial g len).length = len := by
  show ((List.range len).map fun i => hexDigitUpper (g i % 16)).length = len
  simp

lemma genSerial_hex (g : Nat → Nat) (len : Nat) :
    isUpperHexString (GenerateRandomSerial g len) = true := by
  show ((List.range len).map fun i => hexDigitUpper (g i % 16)).all isUpperHexDigit = true
  rw [List.all_eq_true]
  intro c hc
  obtain ⟨i, hi, rfl⟩ := List.mem_map.mp hc
  exact upperHexDigit_of_lt16 _ (Nat.mod_lt _ (by omega))

/-- Claim C8: every set returned by the random generator has
`active = false` and owner process id 0; its `macAddress` matches
`XX:XX:XX:XX:XX:XX` with uppercase hex digits; and the disk, volume, gpu,
bios and motherboard serials consist only of uppercase hex digits with
exactly 16, 8, 12, 10 and 14 characters respectively. -/
theorem claim8_generate_random (gmac gdisk gvol ggpu gbios gmb : Nat → Nat) :
    (GenerateRandomIdentifiers gmac gdisk gvol ggpu gbios gmb).active = false ∧
    (GenerateRandomIdentifiers gmac gdisk gvol ggpu gbios gmb).processId = 0 ∧
    isMacFormat (GenerateRandomIdentifiers gmac gdisk gvol ggpu gbios gmb).macAddress
      = true ∧
    (GenerateRandomIdentifiers gmac gdisk gvol ggpu gbios gmb).diskSerial.length = 16 ∧
    isUpperHexString (GenerateRandomIdentifiers gmac gdisk gvol ggpu gbios gmb).diskSerial
      = true ∧
    (GenerateRandomIdentifiers gmac gdisk gvol ggpu gbios gmb).volumeSerial.length = 8 ∧
    isUpperHexString
      (GenerateRandomIdentifiers gmac gdisk gvol ggpu gbios gmb).volumeSerial = true ∧
    (GenerateRandomIdentifiers gmac gdisk gvol ggpu gbios gmb).gpuId.length = 12 ∧
    isUpperHexString (GenerateRandomIdentifiers gmac gdisk gvol ggpu gbios gmb).gpuId
      = true ∧
    (GenerateRandomIdentifiers gmac gdisk gvol ggpu gbios gmb).biosSerial.length = 10 ∧
    isUpperHexString (GenerateRandomIdentifiers gmac gdisk gvol ggpu gbios gmb).biosSerial
      = true ∧
    (GenerateRandomIdentifiers gmac gdisk gvol ggpu gbios gmb).motherboardSerial.length
      = 14 ∧
    isUpperHexString
      (GenerateRandomIdentifiers gmac gdisk gvol ggpu gbios gmb).motherboardSerial
      = true :=
  ⟨rfl, rfl, genMac_format gmac,
    genSerial_length gdisk 16, genSerial_hex gdisk 16,
    genSerial_length gvol 8, genSerial_hex gvol 8,
    genSerial_length ggpu 12, genSerial_hex ggpu 12,
    genSerial_length gbios 10, genSerial_hex gbios 10,
    genSerial_length gmb 14, genSerial_hex gmb 14⟩

/-! ## Claim C2 -/

lemma writeBytesAux_untouched (mac : List Char) (addrLen : Nat) :
    ∀ fuel i addr j, (j < i ∨ 6 ≤ j ∨ addrLen ≤ j) →
      (writeBytesAux mac addrLen fuel i addr)[j]? = addr[j]? := by
  intro fuel
  induction fuel with
  | zero => intro i addr j _; rfl
  | succ fuel ih =>
    intro i addr j hj
    unfold writeBytesAux
    by_cases hc : i < 6 ∧ i < addrLen
    · rw [if_pos hc]
      rcases hp : parsePair mac i with _ | v
      · rfl
      · show (writeBytesAux mac addrLen fuel (i + 1) (addr.set i (v % 256)))[j]? = addr[j]?
        rw [ih (i + 1) (addr.set i (v % 256)) j (by omega)]
        exact List.getElem?_set_ne (by omega)
    · rw [if_neg hc]

lemma writeBytesAux_success (mac : List Char) (addrLen : Nat) :
    ∀ fuel i addr j v, i ≤ j → j < 6 → j < addrLen → j < addr.length →
      6 - i ≤ fuel →
      (∀ k, i ≤ k → k < j → (parsePair mac k).isSome = true) →
      parsePair mac j = some v →
      (writeBytesAux mac addrLen fuel i addr)[j]? = some (v % 256) := by
  intro fuel
  induction fuel with
  | zero =>
    intro i addr j v hij hj6 _ _ hfuel _ _
    omega
  | succ fuel ih =>
    intro i addr j v hij hj6 hjal hjlen hfuel hall hpj
    have hc : i < 6 ∧ i < addrLen := ⟨by omega, by omega⟩
    unfold writeBytesAux
    rw [if_pos hc]
    rcases Nat.lt_or_ge i j with hlt | hge
    · have hpi := hall i (Nat.le_refl i) hlt
      obtain ⟨vi, hvi⟩ := Option.isSome_iff_exists.mp hpi
      rw [hvi]
      exact ih (i + 1) (addr.set i (vi % 256)) j v (by omega) hj6 hjal
        (by simpa using hjlen) (by omega)
        (fun k hk1 hk2 => hall k (by omega) hk2) hpj
    · have hij2 : i = j := by omega
      subst hij2
      rw [hpj]
      rw [writeBytesAux_untouched mac addrLen fuel (i + 1)
        (addr.set i (v % 256)) i (Or.inl (by omega))]
      exact List.getElem?_set_eq_of_lt _ hjlen

lemma writeBytesAux_failure (mac : List Char) (addrLen : Nat) :
    ∀ fuel i addr k, i ≤ k → k < 6 → k < addrLen → 6 - i ≤ fuel →
      parsePair mac k = none →
      (∀ k2, i ≤ k2 → k2 < k → (parsePair mac k2).isSome = true) →
      ∀ j, k ≤ j → (writeBytesAux mac addrLen fuel i addr)[j]? = addr[j]? := by
  intro fuel
  induction fuel with
  | zero =>
    intro i addr k hik hk6 _ hfuel _ _ j _
    omega
  | succ fuel ih =>
    intro i addr k hik hk6 hkal hfuel hpk hall j hkj
    have hc : i < 6 ∧ i < addrLen := ⟨by omega, by omega⟩
    unfold writeBytesAux
    rw [if_pos hc]
    rcases Nat.lt_or_ge i k with hlt | hge
    · have hpi := hall i (Nat.le_refl i) hlt
      obtain ⟨vi, hvi⟩ := Option.isSome_iff_exists.mp hpi
      rw [hvi, ih (i + 1) (addr.set i (vi % 256)) k (by omega) hk6 hkal (by omega) hpk
        (fun k2 hA hB => hall k2 (by omega) hB) j hkj]
      exact List.getElem?_set_ne (by omega)
    · have hik2 : i = k := by omega
      subst hik2
      rw [hpk]

/-- Claim C2 (amended): the adapter hook returns the real result code
unchanged; when the real call succeeded (NO_ERROR), spoofing is active and
the spoof set's macAddress is non-empty, every record of the returned
sequence is put through the per-record rewrite; that rewrite, whenever the
string has at least 12 characters, overwrites byte i (i < min 6
AddressLength, within the buffer) with the base-16 value of characters
2i,2i+1 as long as every earlier pair decoded, leaves the remaining bytes
of a record at their real values from the first failing pair onward while
later records are still processed, and leaves bytes past min 6
AddressLength untouched; a record is left whole when the string is shorter
than 12 characters (which the claim as frozen did not allow). -/
theorem claim2_adapters_hook :
    (∀ g alive ai r, (HookedGetAdaptersInfo g alive ai r).1 = r) ∧
    (∀ sp alive adapters r, IsSpoofingActive alive sp = true → r = 0 →
      sp.m_currentSpoofed.macAddress ≠ "" →
      (HookedGetAdaptersInfo (some sp) alive (some adapters) r).2 =
        some (adapters.map (spoofOneAdapter sp.m_currentSpoofed.macAddress))) ∧
    (∀ mac a, 12 ≤ mac.length →
      spoofOneAdapter mac a =
        { a with address := writeBytes mac.data a.addressLength 0 a.address }) ∧
    (∀ mac a, mac.length < 12 → spoofOneAdapter mac a = a) ∧
    (∀ mac addrLen addr j v, j < 6 → j < addrLen → j < addr.length →
      (∀ k, k < j → (parsePair mac k).isSome = true) →
      parsePair mac j = some v →
      (writeBytes mac addrLen 0 addr)[j]? = some (v % 256)) ∧
    (∀ mac addrLen addr k j, k < 6 → k < addrLen → parsePair mac k = none →
      (∀ k2, k2 < k → (parsePair mac k2).isSome = true) → k ≤ j →
      (writeBytes mac addrLen 0 addr)[j]? = addr[j]?) ∧
    (∀ mac addrLen addr j, 6 ≤ j ∨ addrLen ≤ j →
      (writeBytes mac addrLen 0 addr)[j]? = addr[j]?) := by
  refine ⟨?_, ?_, ?_, ?_, ?_, ?_, ?_⟩
  · intro g alive ai r
    cases g <;> cases ai <;> rfl
  · intro sp alive adapters r hact hr hne
    simp [HookedGetAdaptersInfo, GetCurrentSpoofedValues, hact, hr, hne]
  · intro mac a h
    unfold spoofOneAdapter
    rw [if_pos h]
  · intro mac a h
    unfold spoofOneAdapter
    rw [if_neg (by omega)]
  · intro mac addrLen addr j v h1 h2 h3 h4 h5
    exact writeBytesAux_success mac addrLen 6 0 addr j v (by omega) h1 h2 h3 (by omega)
      (fun k hA hB => h4 k hB) h5
  · intro mac addrLen addr k j h1 h2 h3 h4 h5
    exact writeBytesAux_failure mac addrLen 6 0 addr k (by omega) h1 h2 (by omega) h3
      (fun k2 hA hB => h4 k2 hB) j h5
  · intro mac addrLen addr j hj
    exact writeBytesAux_untouched mac addrLen 6 0 addr j (Or.inr hj)

/-- Counterexample to claim C2 as frozen: with the non-empty two-character
spoof string `"AA"`, decoding byte 0 succeeds (0xAA = 170), spoofing is
active, yet the hook leaves every address byte at its real value — the
source skips any record when the string has fewer than 12 characters. -/
theorem claim2_counterexample :
    IsSpoofingActive aliveAll spShortMac = true ∧
    spShortMac.m_currentSpoofed.macAddress ≠ "" ∧
    parsePair spShortMac.m_currentSpoofed.macAddress.data 0 = some 170 ∧
    (HookedGetAdaptersInfo (some spShortMac) aliveAll (some [adapterW]) 0).2 =
      some [adapterW] ∧
    adapterW.address[0]? = some 1 := by
  refine ⟨by decide, by decide, by decide, by decide, by decide⟩

/-- Witness: with `AABBCCDDEEFF` the hook maps every record through the
byte rewrite, and byte 0 of the rewrite is 0xAA. -/
theorem claim2_witness :
    (HookedGetAdaptersInfo (some spW2) aliveAll (some [adapterW]) 0).2 =
      some ([adapterW].map (spoofOneAdapter spW2.m_currentSpoofed.macAddress)) ∧
    (writeBytes ("AABBCCDDEEFF".data) adapterW.addressLength 0
      adapterW.address)[0]? = some (170 % 256) := by
  constructor
  · exact claim2_adapters_hook.2.1 spW2 aliveAll [adapterW] 0 (by decide) rfl (by decide)
  · exact claim2_adapters_hook.2.2.2.2.1 ("AABBCCDDEEFF".data) adapterW.addressLength
      adapterW.address 0 170 (by decide) (by decide) (by decide)
      (fun k hk => absurd hk (Nat.not_lt_zero k)) (by decide)

/-! ## Claim C7 -/

lemma apply_fail_state (env : Env) (s : WindowsSpoofer) (ids : SpoofedIdentifiers)
    (h0 : ¬ s.m_initialized = false)
    (hr : (InstallHooks env (stamped s ids)).1 = false) :
    (ApplySpoofing env s ids).2.m_initialized = s.m_initialized ∧
    (ApplySpoofing env s ids).2.m_targetProcessId = s.m_targetProcessId ∧
    (ApplySpoofing env s ids).2.m_currentSpoofed.active = false := by
  have hs2 : (ApplySpoofing env s ids).2 =
      { (InstallHooks env (stamped s ids)).2.1 with m_currentSpoofed :=
        { (InstallHooks env (stamped s ids)).2.1.m_currentSpoofed with
          active := false } } := by
    rw [applySpoofing_eq, if_neg h0, if_pos hr]
  have hp := installHooks_preserves env (stamped s ids)
  rw [hs2]
  refine ⟨?_, ?_, rfl⟩
  · simpa [stamped] using hp.2.1
  · simpa [stamped] using hp.2.2.1

/-- The strengthened inductive invariant behind claim C7: the ghost pid of
the most recent successful initialise agrees with the stored target pid
while initialized, and with the live spoof set's owner pid. -/
def ownerInv (p : WindowsSpoofer × Option Nat) : Prop :=
  (p.1.m_initialized = true → p.2 = some p.1.m_targetProcessId) ∧
  (p.1.m_currentSpoofed.active = true → p.2 = some p.1.m_currentSpoofed.processId)

lemma ownerInv_step (p : WindowsSpoofer × Option Nat) (op : Op)
    (hInv : ownerInv p) (hg : opGuard p op = true) : ownerInv (runOpG p op) := by
  obtain ⟨h1, h2⟩ := hInv
  cases op with
  | init env pid =>
    have e1 : (runOpG p (Op.init env pid)).1 = (InitializeForProcess env p.1 pid).2 :=
      rfl
    have e2 : (runOpG p (Op.init env pid)).2 = some pid := by
      show (if (InitializeForProcess env p.1 pid).1 = true then some pid else p.2) =
        some pid
      rw [init_fst]
      simp
    constructor
    · intro _
      rw [e2, e1, init_target]
    · intro hact
      rw [e1, init_spoofed] at hact
      have hpe : pid = p.1.m_currentSpoofed.processId := by
        simp [opGuard, hact] at hg
        exact hg
      rw [e2, e1, init_spoofed, ← hpe]
  | apply env ids =>
    have e1 : (runOpG p (Op.apply env ids)).1 = (ApplySpoofing env p.1 ids).2 := rfl
    have e2 : (runOpG p (Op.apply env ids)).2 = p.2 := rfl
    by_cases hinit : p.1.m_initialized = false
    · have heq : ApplySpoofing env p.1 ids = (false, p.1) :=
        apply_init_false env p.1 ids hinit
      constructor
      · intro hi
        rw [e1, heq] at hi
        rw [e2, e1, heq]
        exact h1 hi
      · intro ha
        rw [e1, heq] at ha
        rw [e2, e1, heq]
        exact h2 ha
    · have hinitT : p.1.m_initialized = true := by
        revert hinit
        cases p.1.m_initialized <;> simp
      by_cases hap : (ApplySpoofing env p.1 ids).1 = true
      · have hst := apply_success_state env p.1 ids hap
        constructor
        · intro _
          rw [e2, e1, hst.2.2.2.1]
          exact h1 hinitT
        · intro _
          rw [e2, e1, hst.2.2.1]
          exact h1 hinitT
      · have hr : (InstallHooks env (stamped p.1 ids)).1 = false := by
          by_contra hc
          have hcT : (InstallHooks env (stamped p.1 ids)).1 = true := by
            revert hc
            cases (InstallHooks env (stamped p.1 ids)).1 <;> simp
          rw [applySpoofing_eq, if_neg hinit, if_neg (by simp [hcT])] at hap
          exact hap rfl
        have hst := apply_fail_state env p.1 ids hinit hr
        constructor
        · intro hi
          rw [e1, hst.1] at hi
          rw [e2, e1, hst.2.1]
          exact h1 hi
        · intro ha
          rw [e1, hst.2.2] at ha
          exact absurd ha (by simp)
  | restore env =>
    have e1 : (runOpG p (Op.restore env)).1 = (RestoreOriginalValues env p.1).2 := rfl
    have e2 : (runOpG p (Op.restore env)).2 = p.2 := rfl
    have hp := restore_proj env p.1
    constructor
    · intro hi
      rw [e1, hp.1] at hi
      rw [e2, e1, hp.2.1]
      exact h1 hi
    · intro ha
      rw [e1] at ha
      rw [e2, e1, hp.2.2.1]
      exact h2 (hp.2.2.2.1 ha)
  | cleanup env =>
    have e1 : (runOpG p (Op.cleanup env)).1 = Cleanup env p.1 := rfl
    have e2 : (runOpG p (Op.cleanup env)).2 = p.2 := rfl
    by_cases hi : p.1.m_initialized = true
    · have hc := cleanup_eq_init env p.1 hi
      constructor
      · intro hi2
        rw [e1, hc] at hi2
        exact absurd hi2 (by simp)
      · intro ha
        rw [e1, hc] at ha
        have hra := restore_active_false env p.1 hi
        simp [hra] at ha
    · have hc := cleanup_eq_noinit env p.1 hi
      constructor
      · intro hi2
        rw [e1, hc] at hi2
        rw [e2, e1, hc]
        exact h1 hi2
      · intro ha
        rw [e1, hc] at ha
        rw [e2, e1, hc]
        exact h2 ha

/-- Claim C7 (amended): along every operation trace from the initial
state in which initialise is never invoked with a different pid while a
spoof set is active (the one behaviour the source leaves undefined, and
the counterexample the frozen claim admits), a live Spoofed set's owner
process id equals the pid passed to the most recent successful
initialise; initialise under that guard, apply, restore and cleanup all
preserve the invariant. -/
theorem claim7_owner_invariant (ops : List Op)
    (hsafe : safeFrom (initialSpoofer, none) ops = true)
    (hact : (ops.foldl runOpG (initialSpoofer, none)).1.m_currentSpoofed.active
      = true) :
    (ops.foldl runOpG (initialSpoofer, none)).2 =
      some (ops.foldl runOpG (initialSpoofer, none)).1.m_currentSpoofed.processId := by
  have main : ∀ l p, ownerInv p → safeFrom p l = true →
      ownerInv (l.foldl runOpG p) := by
    intro l
    induction l with
    | nil =>
      intro p h _
      exact h
    | cons op ops2 ih =>
      intro p h hs
      rw [safeFrom, Bool.and_eq_true] at hs
      obtain ⟨hg, hrest⟩ := hs
      exact ih (runOpG p op) (ownerInv_step p op h hg) hrest
  have hbase : ownerInv (initialSpoofer, none) :=
    ⟨fun h => absurd h (by decide), fun h => absurd h (by decide)⟩
  exact (main ops (initialSpoofer, none) hbase hsafe).2 hact

/-- The state and ghost pid after init(1), a successful apply, init(2). -/
def pBad : WindowsSpoofer × Option Nat :=
  [Op.init goodEnv 1, Op.apply goodEnv idsW, Op.init goodEnv 2].foldl runOpG
    (initialSpoofer, none)

/-- Counterexample to claim C7 as frozen: after init(1), a successful
apply, and init(2), the spoof set is still active with owner pid 1 while
the most recent successful initialise used pid 2 — initialise with a
different pid during an active spoof does not preserve the invariant. -/
theorem claim7_counterexample :
    pBad.1.m_currentSpoofed.active = true ∧
    pBad.1.m_currentSpoofed.processId = 1 ∧
    pBad.2 = some 2 ∧
    ¬(pBad.2 = some pBad.1.m_currentSpoofed.processId) := by
  refine ⟨by decide, by decide, by decide, by decide⟩

/-- Witness: on the guarded trace init(1) then apply, the live spoof
set's owner equals the last initialised pid. -/
theorem claim7_witness :
    ([Op.init goodEnv 1, Op.apply goodEnv idsW].foldl runOpG
        (initialSpoofer, none)).2 =
      some ([Op.init goodEnv 1, Op.apply goodEnv idsW].foldl runOpG
        (initialSpoofer, none)).1.m_currentSpoofed.processId :=
  claim7_owner_invariant [Op.init goodEnv 1, Op.apply goodEnv idsW]
    (by decide) (by decide)

end Spoof